import Mathlib

/-!
Verification development for the `slack_autoarchive` channel reaper
(`src/slack_autoarchive.py`). The Python module is shallowly embedded:
timestamps (Python `datetime` values compared after `fromtimestamp`) become
rationals, JSON responses become structures with `Option` fields for keys
that may be absent, and the network is an oracle mapping a channel id to its
history response. Effects (log lines, HTTP requests, the report file) are
reified as an explicit trace.
-/

namespace SlackAutoarchive

/-- Python `needle in haystack` prefix step on character lists:
`subAt n h` is true when `n` occurs at the start of `h`. -/
def subAt : List Char → List Char → Bool
  | [], _ => true
  | _ :: _, [] => false
  | a :: as, b :: bs => a == b && subAt as bs

/-- Python `needle in haystack` on character lists: true when `needle`
occurs contiguously somewhere in `haystack` (always true for `[]`). -/
def hasSub (needle : List Char) : List Char → Bool
  | [] => subAt needle []
  | b :: bs => subAt needle (b :: bs) || hasSub needle bs

/-- Python substring test `needle in haystack` on strings. -/
def pyIn (needle haystack : String) : Bool :=
  hasSub needle.data haystack.data

/-- Python `s.strip(c)` for a single strip character: removes all leading
and trailing occurrences of `c`. -/
def pyStripChar (c : Char) (s : String) : String :=
  ⟨((s.data.dropWhile (· == c)).reverse.dropWhile (· == c)).reverse⟩

/-- Python `s.strip()`: removes leading and trailing whitespace (the
per-line trimming applied to `whitelist.txt` lines at line 38). -/
def pyStripWS (s : String) : String :=
  ⟨((s.data.dropWhile Char.isWhitespace).reverse.dropWhile Char.isWhitespace).reverse⟩

/-- Modelled from the spec (the settings provider `config.py` is not part
of the given sources; spec section 3 lists the configuration keys): the
immutable key-value configuration resolved once at startup. Optional keys
read with truthiness tests in the source (`whitelist_keywords`,
`admin_channel`) are strings whose empty value means "unset". -/
structure Settings where
  slack_token : String
  bot_slack_token : String
  dry_run : Bool
  min_members : Nat
  days_inactive : Nat
  too_old_datetime : ℚ
  admin_channel : String
  skip_subtypes : List String
  skip_channel_str : String
  whitelist_keywords : String
deriving DecidableEq, Repr

/-- The flat channel record produced by `get_all_channels` (lines 106-117):
id, name, creation timestamp, member count, topic text, purpose text. -/
structure Channel where
  id : String
  name : String
  created : ℚ
  num_members : Nat
  topic : String
  purpose : String
deriving DecidableEq, Repr

/-- One entry of a `conversations.history` response. `subtype` is `none`
when the `"subtype"` key is absent; `ts` is the parsed `float(message["ts"])`. -/
structure Message where
  subtype : Option String
  ts : ℚ
deriving DecidableEq, Repr

/-- A `conversations.history` response body. `messages` is `none` when the
`"messages"` key is absent from the mapping. -/
structure History where
  messages : Option (List Message)
deriving DecidableEq, Repr

/-- The skip test of lines 131-133: the message has a `"subtype"` key and
its value is in the configured skip-subtypes set. -/
def message_skipped (st : Settings) (m : Message) : Bool :=
  match m.subtype with
  | some sub => st.skip_subtypes.contains sub
  | none => false

/-- `get_last_message_timestamp` (lines 120-143). `channel_history` is
`none` when the fetch returned a falsy response. The scan of lines 130-136
takes the first message not skipped by subtype; if none qualifies the
value stays at the `too_old_datetime` fallback. The reset to the epoch at
lines 140-141 is unreachable because a Python `datetime` object is always
truthy, so it does not appear here. -/
def get_last_message_timestamp (st : Settings) (channel_history : Option History)
    (too_old_datetime : ℚ) : ℚ :=
  match channel_history with
  | none => 0
  | some h =>
    match h.messages with
    | none => too_old_datetime
    | some msgs =>
      match msgs.find? (fun m => !message_skipped st m) with
      | some m => m.ts
      | none => too_old_datetime

/-- The membership condition of line 161:
`min_members == 0 or min_members > num_members`. -/
def has_min_users (min_members num_members : Nat) : Bool :=
  min_members == 0 || decide (min_members > num_members)

/-- `is_channel_disused` (lines 145-163). The `conversations.history` call
of lines 148-154 is abstracted by the oracle `hist`; the fallback passed to
`get_last_message_timestamp` is the channel's creation time (line 156). -/
def is_channel_disused (st : Settings) (hist : String → Option History)
    (channel : Channel) (too_old_datetime : ℚ) : Bool :=
  let channel_history := hist channel.id
  let last_message_datetime :=
    get_last_message_timestamp st channel_history channel.created
  let last_message_is_too_old := decide (last_message_datetime ≤ too_old_datetime)
  last_message_is_too_old && has_min_users st.min_members channel.num_members

/-- `is_channel_whitelisted` (lines 166-181): true when the exemption
marker is a substring of the purpose or the topic; otherwise true when some
whitelist entry, stripped of `#`, is a substring of the channel name. -/
def is_channel_whitelisted (st : Settings) (channel : Channel)
    (white_listed_channels : List String) : Bool :=
  if pyIn st.skip_channel_str channel.purpose || pyIn st.skip_channel_str channel.topic then
    true
  else
    white_listed_channels.any (fun w => pyIn (pyStripChar '#' w) channel.name)

/-- `get_whitelist_keywords` (lines 27-42) under Python 3 semantics.
`fileLines` is the `readlines()` content of `whitelist.txt` when the file
exists. After line 38, `keywords` is a `map` object (an iterator); when the
`whitelist_keywords` setting is truthy, line 41 evaluates
`keywords + whitelist_keywords.split(",")`, and in Python 3 a `map` object
does not support `+` with a `list`, so the call raises `TypeError`. -/
def get_whitelist_keywords (fileLines : Option (List String))
    (whitelist_keywords : String) : Except String (List String) :=
  let keywords := (fileLines.getD []).map pyStripWS
  if whitelist_keywords ≠ "" then
    Except.error "TypeError: unsupported operand type(s) for +: 'map' and 'list'"
  else
    Except.ok keywords

/-- One HTTP response of the scripted server consumed by `slack_api_http`:
status code, the `Retry-After` header (read only on 429), and the parsed
JSON body's `ok` and `error` fields. The rest of the body is abstracted to
a string. -/
structure HttpResp where
  status : Nat
  retry_after : ℚ
  ok : Bool
  error : Option String
  body : String
deriving DecidableEq, Repr

/-- One HTTP request actually issued by `slack_api_http` (lines 59-75):
the endpoint, payload, method, acting identity with the bearer token it
selects (line 60), and the time slept before issuing (lines 69-70). -/
structure SentRequest where
  api_endpoint : String
  payload : List (String × String)
  method : String
  as_bot : Bool
  token : String
  slept : ℚ
deriving DecidableEq, Repr

/-- Outcome of `slack_api_http`: fatal exit on `not_authed` (line 85),
the parsed body on success (line 87), `noResult` for the fall-through
`return None` (line 93), and `serverExhausted` when the scripted response
list runs out (the Python recursion of line 90 has no cap). -/
inductive ApiOutcome where
  | fatalExit
  | success (resp : HttpResp)
  | noResult
  | serverExhausted
deriving DecidableEq, Repr

/-- `slack_api_http` (lines 50-93) against a scripted list of responses,
one consumed per issued request; returns the trace of issued requests and
the outcome. Branches in source order: HTTP 200 with body error
`"not_authed"` exits (lines 77-85); HTTP 200 with `ok` true returns the
body (lines 86-87); HTTP 429 sleeps `Retry-After` seconds and recurses
with `api_endpoint, payload, method, retry_timeout` — the `as_bot`
argument is NOT forwarded, so the retry uses its default `False`
(lines 88-90); anything else returns `None` (line 93). -/
def slack_api_http (st : Settings) (api_endpoint : String)
    (payload : List (String × String)) (method : String) (retry_delay : ℚ)
    (as_bot : Bool) : List HttpResp → List SentRequest × ApiOutcome
  | [] => ([], ApiOutcome.serverExhausted)
  | resp :: rest =>
    let req : SentRequest :=
      { api_endpoint := api_endpoint
        payload := payload
        method := method
        as_bot := as_bot
        token := if as_bot then st.bot_slack_token else st.slack_token
        slept := if retry_delay > 0 then retry_delay else 0 }
    if resp.status = 200 ∧ resp.error = some "not_authed" then
      ([req], ApiOutcome.fatalExit)
    else if resp.status = 200 ∧ resp.ok then
      ([req], ApiOutcome.success resp)
    else if resp.status = 429 then
      let rec_result :=
        slack_api_http st api_endpoint payload method resp.retry_after false rest
      (req :: rec_result.1, rec_result.2)
    else
      ([req], ApiOutcome.noResult)

/-- One observable effect of the reaper: a stdout progress dot (line 234),
an audit-log line, the `conversations.history` fetch made inside
`is_channel_disused` (lines 148-154), an outgoing HTTP request, or the
written report file (name and content). -/
inductive Effect where
  | stdoutDot
  | log (msg : String)
  | historyFetch (channelId : String)
  | request (r : SentRequest)
  | reportFile (fileName content : String)
deriving DecidableEq, Repr

/-- Fuel-bounded substring replacement on character lists, embedding the
single-placeholder `str.format` call of line 201 (every occurrence of the
pattern is replaced; the fuel is the input length, enough to finish). -/
def replaceSubAux (pat rep : List Char) : Nat → List Char → List Char
  | _, [] => []
  | 0, l => l
  | fuel + 1, c :: cs =>
    if pat ≠ [] && subAt pat (c :: cs) then
      rep ++ replaceSubAux pat rep fuel (List.drop (pat.length - 1) cs)
    else
      c :: replaceSubAux pat rep fuel cs

/-- `alert.format(days_inactive=...)` (line 201): substitutes the
`days_inactive` placeholder of the template. -/
def formatAlert (alert : String) (days : Nat) : String :=
  ⟨replaceSubAux "\x7bdays_inactive\x7d".data (toString days).data
    alert.data.length alert.data⟩

/-- `send_channel_message` (lines 183-192): the `chat.postMessage` POST
issued as the bot, with the fixed display name and emoji. -/
def send_channel_message_req (st : Settings) (channel_id message : String) :
    SentRequest :=
  { api_endpoint := "chat.postMessage"
    payload := [("channel", channel_id), ("username", "Auto Archiver"),
                ("icon_emoji", ":wave:"), ("text", message)]
    method := "POST"
    as_bot := true
    token := st.bot_slack_token
    slept := 0 }

/-- `archive_channel` (lines 194-205) as its effect trace: the intent log
line first; when not in dry-run mode, the formatted alert posted to the
channel, the `conversations.archive` call (GET, user token), and the
completion log line. -/
def archive_channel (st : Settings) (channel : Channel) (alert : String) :
    List Effect :=
  let stdout_message := "Archiving channel... " ++ channel.name
  if st.dry_run then
    [Effect.log stdout_message]
  else
    [Effect.log stdout_message,
     Effect.request (send_channel_message_req st channel.id
       (formatAlert alert st.days_inactive)),
     Effect.request
       { api_endpoint := "conversations.archive"
         payload := [("channel", channel.id)]
         method := "GET"
         as_bot := false
         token := st.slack_token
         slept := 0 },
     Effect.log stdout_message]

/-- `send_admin_report` (lines 207-214) as its effect trace: nothing when
no admin channel is configured; otherwise one message listing the count
and `#name` of each archived channel, prefixed `[DRY RUN]` in dry-run. -/
def send_admin_report (st : Settings) (channels : List Channel) : List Effect :=
  if st.admin_channel ≠ "" then
    let channel_names :=
      String.intercalate ", " (channels.map (fun c => "#" ++ c.name))
    let admin_msg :=
      "Archiving " ++ toString channels.length ++ " channels: " ++ channel_names
    let admin_msg := if st.dry_run then "[DRY RUN] " ++ admin_msg else admin_msg
    [Effect.request (send_channel_message_req st st.admin_channel admin_msg)]
  else
    []

/-- The report file content of `generate_report` (line 220): the archived
channel names joined by newlines. -/
def report_content (channels : List Channel) : String :=
  String.intercalate "\n" (channels.map (fun c => c.name))

/-- `generate_report` (lines 216-220): writes the timestamp-named file;
`now` stands for `datetime.now().strftime("%m%d%Y%H%M%S")`. -/
def generate_report (now : String) (channels : List Channel) : Effect :=
  Effect.reportFile ("report-" ++ now ++ ".txt") (report_content channels)

/-- The upstream data one run reads: the listed channels, the history
oracle, the `channel_template` alert from `templates.json`, and the
optional `whitelist.txt` lines. -/
structure World where
  channels : List Channel
  histories : String → Option History
  channel_template : String
  whitelist_file : Option (List String)

/-- The per-channel loop of `main` (lines 233-245): for each channel a
progress dot, the history fetch made inside `is_channel_disused`, both
predicate evaluations (always both — no short-circuit), and the archive
effects plus accumulation exactly when not whitelisted and disused. -/
def main_loop (st : Settings) (hist : String → Option History)
    (wl : List String) (alert : String) :
    List Channel → List Channel × List Effect
  | [] => ([], [])
  | c :: cs =>
    let channel_whitelisted := is_channel_whitelisted st c wl
    let channel_disused := is_channel_disused st hist c st.too_old_datetime
    let here := [Effect.stdoutDot, Effect.historyFetch c.id]
    let rest := main_loop st hist wl alert cs
    if !channel_whitelisted && channel_disused then
      (c :: rest.1, here ++ archive_channel st c alert ++ rest.2)
    else
      (rest.1, here ++ rest.2)

/-- `main` (lines 222-248): the dry-run banner, then the whitelist load
(which can raise, line 41), the per-channel loop, the admin report, and
the file report, in that order. `now` is the report timestamp. -/
def run_main (st : Settings) (w : World) (now : String) :
    Except String (List Channel × List Effect) :=
  match get_whitelist_keywords w.whitelist_file st.whitelist_keywords with
  | Except.error e => Except.error e
  | Except.ok whitelist_keywords =>
    let banner :=
      if st.dry_run then
        [Effect.log "THIS IS A DRY RUN. NO CHANNELS ARE ACTUALLY ARCHIVED."]
      else []
    let looped :=
      main_loop st w.histories whitelist_keywords w.channel_template w.channels
    Except.ok (looped.1,
      banner ++ looped.2 ++ send_admin_report st looped.1 ++
        [generate_report now looped.1])

/-- A concrete configuration used to instantiate theorems on explicit
inputs: nonzero member minimum, one skip subtype, a marker string, no
whitelist keyword setting. -/
def sampleSettings : Settings :=
  { slack_token := "user-token"
    bot_slack_token := "bot-token"
    dry_run := false
    min_members := 5
    days_inactive := 60
    too_old_datetime := 1000
    admin_channel := "ADMIN"
    skip_subtypes := ["channel_join", "channel_leave"]
    skip_channel_str := "%noarchive"
    whitelist_keywords := "" }

/-- The sample configuration with the dry-run flag set and no admin
channel. -/
def sampleSettingsDry : Settings :=
  { sampleSettings with dry_run := true, admin_channel := "" }

/-- A concrete channel snapshot used to instantiate theorems. -/
def sampleChannel : Channel :=
  { id := "C1", name := "old-proj", created := 500, num_members := 3,
    topic := "", purpose := "" }

/-- A concrete upstream world with one channel whose history holds only a
subtype-skipped message, so the creation-time fallback applies. -/
def sampleWorld : World :=
  { channels := [sampleChannel]
    histories := fun cid =>
      if cid = "C1" then
        some { messages := some [{ subtype := some "channel_join", ts := 2000 }] }
      else none
    channel_template := "inactive for \x7bdays_inactive\x7d days"
    whitelist_file := some ["general"] }

/-- An upstream world with no channels at all. -/
def emptyWorld : World :=
  { channels := []
    histories := fun _ => none
    channel_template := "template"
    whitelist_file := none }

-- Helper lemmas shared by the claim theorems.

/-- The empty character list occurs in every character list. -/
theorem hasSub_nil (l : List Char) : hasSub [] l = true := by
  induction l with
  | nil => rfl
  | cons b bs ih => simp [hasSub, subAt]

/-- The empty string is a Python substring of every string. -/
theorem pyIn_empty (s : String) : pyIn "" s = true :=
  hasSub_nil s.data

/-- The intent log line is emitted by `archive_channel` in both modes. -/
theorem archive_channel_intent (st : Settings) (c : Channel) (alert : String) :
    Effect.log ("Archiving channel... " ++ c.name) ∈ archive_channel st c alert := by
  unfold archive_channel
  split <;> simp

/-- Closed form of the main loop: the archived list is a filter of the
listed channels, and the trace is the per-channel blocks concatenated. -/
theorem main_loop_eq (st : Settings) (hist : String → Option History)
    (wl : List String) (alert : String) (cs : List Channel) :
    main_loop st hist wl alert cs =
      (cs.filter (fun c => !is_channel_whitelisted st c wl &&
         is_channel_disused st hist c st.too_old_datetime),
       cs.flatMap (fun c =>
         [Effect.stdoutDot, Effect.historyFetch c.id] ++
           (if !is_channel_whitelisted st c wl &&
               is_channel_disused st hist c st.too_old_datetime
            then archive_channel st c alert else []))) := by
  induction cs with
  | nil => rfl
  | cons a as ih =>
    simp only [main_loop, ih, List.filter_cons, List.flatMap_cons]
    split <;> simp_all

/-- C1 counterexample: with a nonzero minimum of 5 and a channel of exactly
5 members, the membership condition of `is_channel_disused` is false — the
channel with member count equal to the threshold IS protected, contrary to
the claim. The second conjunct shows the whole disuse predicate rejects a
maximally old channel of exactly 5 members under the sample settings. -/
theorem equal_min_members_counterexample :
    (5 : Nat) ≠ 0 ∧ has_min_users 5 5 = false ∧
      is_channel_disused sampleSettings (fun _ => none)
        { id := "C9", name := "five-members", created := 500, num_members := 5,
          topic := "", purpose := "" } 1000 = false := by
  decide

/-- C1 amended: for every channel whose member count equals a nonzero
minimum-members threshold, the membership condition `has_min_users` of
`is_channel_disused` is false (the strict `>` of line 161 excludes
equality), so the channel is protected by the minimum: the channel is never
disused. -/
theorem equal_min_members_channel_protected (st : Settings)
    (hist : String → Option History) (c : Channel) (too_old : ℚ)
    (heq : c.num_members = st.min_members) (hne : st.min_members ≠ 0) :
    has_min_users st.min_members c.num_members = false ∧
      is_channel_disused st hist c too_old = false := by
  have hmin : has_min_users st.min_members c.num_members = false := by
    unfold has_min_users
    rw [heq]
    simp only [Bool.or_eq_false_iff, decide_eq_false_iff_not]
    exact ⟨by simpa using hne, lt_irrefl _⟩
  refine ⟨hmin, ?_⟩
  unfold is_channel_disused
  rw [hmin, Bool.and_false]

/-- C1 witness: the amended theorem applied to a concrete 5-member channel
under a minimum of 5. -/
theorem equal_min_members_channel_protected_witness :
    has_min_users sampleSettings.min_members 5 = false ∧
      is_channel_disused sampleSettings (fun _ => none)
        { id := "C9", name := "five-members", created := 500, num_members := 5,
          topic := "", purpose := "" } 1000 = false :=
  equal_min_members_channel_protected sampleSettings (fun _ => none)
    { id := "C9", name := "five-members", created := 500, num_members := 5,
      topic := "", purpose := "" } 1000 (by decide) (by decide)

/-- C2 counterexample: a history response that is present but has no
`"messages"` key resolves to the fallback passed in (line 128), not to the
epoch: with fallback 100 the result is 100, not 0. -/
theorem history_without_messages_counterexample :
    get_last_message_timestamp sampleSettings (some { messages := none }) 100 = 100 ∧
      (100 : ℚ) ≠ 0 := by
  constructor
  · rfl
  · decide

/-- C2 amended: an absent (falsy) history response resolves the
last-activity time to the epoch (line 125), while a mapping that omits the
`"messages"` key resolves it to the fallback passed in by
`is_channel_disused` — the channel's creation time — not to the epoch
(line 128). -/
theorem last_message_timestamp_fallbacks (st : Settings) (fallback : ℚ)
    (h : History) (hm : h.messages = none) :
    get_last_message_timestamp st none fallback = 0 ∧
      get_last_message_timestamp st (some h) fallback = fallback := by
  refine ⟨rfl, ?_⟩
  simp [get_last_message_timestamp, hm]

/-- C2 witness: the amended theorem applied to a messages-free history
mapping with fallback 100. -/
theorem last_message_timestamp_fallbacks_witness :
    get_last_message_timestamp sampleSettings none 100 = 0 ∧
      get_last_message_timestamp sampleSettings (some { messages := none }) 100 = 100 :=
  last_message_timestamp_fallbacks sampleSettings 100 { messages := none } rfl

/-- C4: the code contradicts the intended union. With `whitelist.txt`
holding one line and the settings keyword list `"foo,bar"` present, the
Python 3 expression `keywords + whitelist_keywords.split(",")` at line 41
adds a `map` object to a `list` and raises `TypeError` instead of
returning the union of the two sources. -/
theorem get_whitelist_keywords_type_error :
    get_whitelist_keywords (some ["general\n"]) "foo,bar" =
      Except.error "TypeError: unsupported operand type(s) for +: 'map' and 'list'" := by
  rfl

/-- C5: whenever the exemption marker string occurs in a channel's purpose
or topic, `is_channel_whitelisted` returns true, whatever the channel name
and the whitelist keyword list. -/
theorem marker_in_purpose_or_topic_whitelists (st : Settings) (c : Channel)
    (wl : List String)
    (h : pyIn st.skip_channel_str c.purpose = true ∨
         pyIn st.skip_channel_str c.topic = true) :
    is_channel_whitelisted st c wl = true := by
  unfold is_channel_whitelisted
  rcases h with h | h <;> simp [h]

/-- C5 witness: a channel whose purpose contains the sample marker
`%noarchive` is whitelisted although its name matches no keyword. -/
theorem marker_in_purpose_or_topic_whitelists_witness :
    pyIn sampleSettings.skip_channel_str "%noarchive keep me" = true ∧
      is_channel_whitelisted sampleSettings
        { id := "C2", name := "plain-name", created := 0, num_members := 1,
          topic := "", purpose := "%noarchive keep me" } ["unrelated"] = true :=
  ⟨by decide,
   marker_in_purpose_or_topic_whitelists sampleSettings
     { id := "C2", name := "plain-name", created := 0, num_members := 1,
       topic := "", purpose := "%noarchive keep me" } ["unrelated"]
     (Or.inl (by decide))⟩

/-- C9: a whitelist entry that strips (over `#`) to the empty string makes
every channel whitelisted, because the empty string is a Python substring
of every channel name (lines 176-181). -/
theorem empty_whitelist_entry_whitelists_all (st : Settings) (c : Channel)
    (wl : List String) (entry : String) (hmem : entry ∈ wl)
    (hstrip : pyStripChar '#' entry = "") :
    is_channel_whitelisted st c wl = true := by
  unfold is_channel_whitelisted
  split
  · rfl
  · refine List.any_eq_true.mpr ⟨entry, hmem, ?_⟩
    rw [hstrip]
    exact pyIn_empty c.name

/-- C9 witness: the whitelist `["#"]` (an entry that strips to the empty
string) whitelists an ordinary channel. -/
theorem empty_whitelist_entry_whitelists_all_witness :
    pyStripChar '#' "#" = "" ∧
      is_channel_whitelisted sampleSettings sampleChannel ["#"] = true :=
  ⟨by decide,
   empty_whitelist_entry_whitelists_all sampleSettings sampleChannel ["#"] "#"
     (List.mem_singleton.mpr rfl) (by decide)⟩

/-- C10: when the history response holds a non-empty message list in which
every message is skipped by subtype, `get_last_message_timestamp` returns
the fallback `is_channel_disused` passes in — the channel's creation time —
and the channel is disused exactly when its creation time is at or before
the cutoff and the membership condition holds. -/
theorem all_skipped_messages_creation_fallback (st : Settings)
    (hist : String → Option History) (c : Channel) (too_old : ℚ) (h : History)
    (msgs : List Message) (hh : hist c.id = some h) (hm : h.messages = some msgs)
    (hne : msgs ≠ []) (hskip : ∀ m ∈ msgs, message_skipped st m = true) :
    get_last_message_timestamp st (hist c.id) c.created = c.created ∧
      is_channel_disused st hist c too_old =
        (decide (c.created ≤ too_old) &&
          has_min_users st.min_members c.num_members) := by
  have hfind : msgs.find? (fun m => !message_skipped st m) = none := by
    rw [List.find?_eq_none]
    intro m hmmem
    simp [hskip m hmmem]
  have hlast : get_last_message_timestamp st (hist c.id) c.created = c.created := by
    simp [get_last_message_timestamp, hh, hm, hfind]
  refine ⟨hlast, ?_⟩
  simp only [is_channel_disused]
  rw [hlast]

/-- C10 witness: the sample world's channel has exactly one message, a
skipped `channel_join`; its disuse reduces to creation time 500 ≤ cutoff
1000 with the membership condition for 3 < 5 members. -/
theorem all_skipped_messages_creation_fallback_witness :
    get_last_message_timestamp sampleSettings (sampleWorld.histories sampleChannel.id)
        sampleChannel.created = sampleChannel.created ∧
      is_channel_disused sampleSettings sampleWorld.histories sampleChannel 1000 =
        (decide (sampleChannel.created ≤ (1000 : ℚ)) &&
          has_min_users sampleSettings.min_members sampleChannel.num_members) :=
  all_skipped_messages_creation_fallback sampleSettings sampleWorld.histories
    sampleChannel 1000
    { messages := some [{ subtype := some "channel_join", ts := 2000 }] }
    [{ subtype := some "channel_join", ts := 2000 }]
    (by decide) rfl (by decide) (by decide)

/-- C6: with the dry-run flag set, `archive_channel` emits exactly the
intent log line and no HTTP request at all (no message post, no archive
call). -/
theorem dry_run_archive_no_network (st : Settings) (c : Channel) (alert : String)
    (h : st.dry_run = true) :
    archive_channel st c alert = [Effect.log ("Archiving channel... " ++ c.name)] ∧
      ∀ e ∈ archive_channel st c alert, ∀ r : SentRequest, e ≠ Effect.request r := by
  have harch : archive_channel st c alert =
      [Effect.log ("Archiving channel... " ++ c.name)] := by
    simp [archive_channel, h]
  refine ⟨harch, ?_⟩
  rw [harch]
  intro e he r
  rw [List.mem_singleton] at he
  subst he
  exact fun hc => Effect.noConfusion hc

/-- C6 witness: the dry-run sample settings applied to the sample channel
yield only the intent log line. -/
theorem dry_run_archive_no_network_witness :
    archive_channel sampleSettingsDry sampleChannel "alert" =
        [Effect.log ("Archiving channel... " ++ sampleChannel.name)] ∧
      ∀ e ∈ archive_channel sampleSettingsDry sampleChannel "alert",
        ∀ r : SentRequest, e ≠ Effect.request r :=
  dry_run_archive_no_network sampleSettingsDry sampleChannel "alert" rfl

/-- C3 counterexample: a call made as the bot that receives a 429 is
retried with the default `as_bot=False` — the recursive call at line 90
passes only `api_endpoint, payload, method, retry_timeout` — so the reissued
request carries the user token, not the original bot identity: the trace of
identities is `[(true, bot-token), (false, user-token)]` with the two
tokens distinct. -/
theorem rate_limit_retry_counterexample :
    (slack_api_http sampleSettings "chat.postMessage" [("channel", "C1")] "POST" 0 true
        [{ status := 429, retry_after := 2, ok := false, error := none, body := "" },
         { status := 200, retry_after := 0, ok := true, error := none, body := "second" }]).1.map
      (fun r => (r.as_bot, r.token)) =
        [(true, "bot-token"), (false, "user-token")] ∧
      ("bot-token" : String) ≠ "user-token" := by
  constructor
  · rfl
  · decide

/-- C3 amended: on a 429 response the client sleeps the `Retry-After`
header value and reissues the request exactly once for that encounter with
the same endpoint, payload and method, returning the second response's
body — but the retry is always issued with the default non-bot identity
(the user token), because the recursive call at line 90 does not forward
`as_bot`. -/
theorem rate_limit_retry_behaviour (st : Settings) (ep : String)
    (p : List (String × String)) (m : String) (ab : Bool) (r1 r2 : HttpResp)
    (rest : List HttpResp) (h1 : r1.status = 429) (hra : 0 ≤ r1.retry_after)
    (h2 : r2.status = 200) (h2ok : r2.ok = true)
    (h2err : r2.error ≠ some "not_authed") :
    ∃ req1 req2 : SentRequest,
      slack_api_http st ep p m 0 ab (r1 :: r2 :: rest) =
          ([req1, req2], ApiOutcome.success r2) ∧
        req1.as_bot = ab ∧ req1.slept = 0 ∧
        req2.api_endpoint = ep ∧ req2.payload = p ∧ req2.method = m ∧
        req2.slept = r1.retry_after ∧ req2.as_bot = false ∧
        req2.token = st.slack_token := by
  have hslept : (if r1.retry_after > 0 then r1.retry_after else 0) = r1.retry_after := by
    rcases lt_or_eq_of_le hra with hlt | heq
    · rw [if_pos hlt]
    · rw [if_neg (by rw [← heq]; exact lt_irrefl 0), heq]
  refine ⟨{ api_endpoint := ep, payload := p, method := m, as_bot := ab,
            token := if ab then st.bot_slack_token else st.slack_token, slept := 0 },
          { api_endpoint := ep, payload := p, method := m, as_bot := false,
            token := st.slack_token, slept := r1.retry_after },
          ?_, rfl, rfl, rfl, rfl, rfl, rfl, rfl, rfl⟩
  simp only [slack_api_http]
  simp [h1, h2, h2ok, h2err, hslept]

/-- C3 witness: the amended theorem applied to a concrete 429-then-200
server script with `Retry-After: 2`, called as the bot. -/
theorem rate_limit_retry_behaviour_witness :
    ∃ req1 req2 : SentRequest,
      slack_api_http sampleSettings "conversations.history" [("channel", "C1")] "GET" 0 true
          [{ status := 429, retry_after := 2, ok := false, error := none, body := "" },
           { status := 200, retry_after := 0, ok := true, error := none, body := "history" }] =
          ([req1, req2],
           ApiOutcome.success
             { status := 200, retry_after := 0, ok := true, error := none, body := "history" }) ∧
        req1.as_bot = true ∧ req1.slept = 0 ∧
        req2.api_endpoint = "conversations.history" ∧
        req2.payload = [("channel", "C1")] ∧ req2.method = "GET" ∧
        req2.slept = 2 ∧ req2.as_bot = false ∧
        req2.token = sampleSettings.slack_token :=
  rate_limit_retry_behaviour sampleSettings "conversations.history"
    [("channel", "C1")] "GET" true
    { status := 429, retry_after := 2, ok := false, error := none, body := "" }
    { status := 200, retry_after := 0, ok := true, error := none, body := "history" }
    [] (by decide) (by decide) (by decide) (by decide) (by decide)

/-- Every listed channel's history fetch occurs in the main-loop trace. -/
theorem main_loop_fetch_mem (st : Settings) (hist : String → Option History)
    (wl : List String) (alert : String) (cs : List Channel) (c : Channel)
    (hc : c ∈ cs) :
    Effect.historyFetch c.id ∈ (main_loop st hist wl alert cs).2 := by
  rw [main_loop_eq]
  exact List.mem_flatMap.mpr ⟨c, hc, by simp⟩

/-- Every channel the main loop archives has its intent log line in the
main-loop trace. -/
theorem main_loop_intent_mem (st : Settings) (hist : String → Option History)
    (wl : List String) (alert : String) (cs : List Channel) (c : Channel)
    (hc : c ∈ (main_loop st hist wl alert cs).1) :
    Effect.log ("Archiving channel... " ++ c.name) ∈
      (main_loop st hist wl alert cs).2 := by
  rw [main_loop_eq] at hc ⊢
  have hc' := List.mem_filter.mp hc
  refine List.mem_flatMap.mpr ⟨c, hc'.1, ?_⟩
  rw [List.mem_append]
  refine Or.inr ?_
  rw [if_pos hc'.2]
  exact archive_channel_intent st c alert

/-- C7: under a whitelist load that succeeds, `main` archives exactly the
listed channels that are not whitelisted and are disused (both predicates
are evaluated for every channel: the per-channel history fetch appears in
the trace even for whitelisted channels), logs the archive intent for each
archived channel, and ends the trace with the admin report followed by the
file report. -/
theorem main_orchestration (st : Settings) (w : World) (now : String)
    (wl : List String)
    (hwl : get_whitelist_keywords w.whitelist_file st.whitelist_keywords =
      Except.ok wl) :
    ∃ archived trace,
      run_main st w now = Except.ok (archived, trace) ∧
        archived = w.channels.filter
          (fun c => !is_channel_whitelisted st c wl &&
            is_channel_disused st w.histories c st.too_old_datetime) ∧
        (∀ c ∈ w.channels, Effect.historyFetch c.id ∈ trace) ∧
        (∀ c ∈ archived, Effect.log ("Archiving channel... " ++ c.name) ∈ trace) ∧
        ∃ pre, trace = pre ++ send_admin_report st archived ++
          [generate_report now archived] := by
  have hloop := main_loop_eq st w.histories wl w.channel_template w.channels
  have hrun : run_main st w now =
      Except.ok ((main_loop st w.histories wl w.channel_template w.channels).1,
        (if st.dry_run then
          [Effect.log "THIS IS A DRY RUN. NO CHANNELS ARE ACTUALLY ARCHIVED."]
         else []) ++
          (main_loop st w.histories wl w.channel_template w.channels).2 ++
          send_admin_report st
            (main_loop st w.histories wl w.channel_template w.channels).1 ++
          [generate_report now
            (main_loop st w.histories wl w.channel_template w.channels).1]) := by
    simp only [run_main, hwl]
  refine ⟨_, _, hrun, ?_, ?_, ?_, ?_⟩
  · rw [hloop]
  · intro c hc
    have hmem := main_loop_fetch_mem st w.histories wl w.channel_template
      w.channels c hc
    simp only [List.mem_append]
    tauto
  · intro c hc
    have hmem := main_loop_intent_mem st w.histories wl w.channel_template
      w.channels c hc
    simp only [List.mem_append]
    tauto
  · refine ⟨(if st.dry_run then
        [Effect.log "THIS IS A DRY RUN. NO CHANNELS ARE ACTUALLY ARCHIVED."]
       else []) ++
        (main_loop st w.histories wl w.channel_template w.channels).2, ?_⟩
    simp [List.append_assoc]

/-- C7 witness: the sample world (one disused, non-whitelisted channel)
with the sample settings: the archived list is exactly the one channel,
its history fetch and intent log are in the trace, and the trace ends with
the admin report and the file report. -/
theorem main_orchestration_witness :
    ∃ archived trace,
      run_main sampleSettings sampleWorld "0101" = Except.ok (archived, trace) ∧
        archived = sampleWorld.channels.filter
          (fun c => !is_channel_whitelisted sampleSettings c ["general"] &&
            is_channel_disused sampleSettings sampleWorld.histories c
              sampleSettings.too_old_datetime) ∧
        (∀ c ∈ sampleWorld.channels, Effect.historyFetch c.id ∈ trace) ∧
        (∀ c ∈ archived, Effect.log ("Archiving channel... " ++ c.name) ∈ trace) ∧
        ∃ pre, trace = pre ++ send_admin_report sampleSettings archived ++
          [generate_report "0101" archived] :=
  main_orchestration sampleSettings sampleWorld "0101" ["general"] rfl

/-- C8: the archived-channel list, and with it the channel-name content of
the report file, is a deterministic function of the upstream data: two
dry-run executions over the same settings and world — even at different
report timestamps — yield the same archived list and identical report
content. -/
theorem dry_run_report_deterministic (st : Settings) (w : World)
    (now₁ now₂ : String) (hdry : st.dry_run = true) (a₁ a₂ : List Channel)
    (t₁ t₂ : List Effect) (h₁ : run_main st w now₁ = Except.ok (a₁, t₁))
    (h₂ : run_main st w now₂ = Except.ok (a₂, t₂)) :
    a₁ = a₂ ∧ report_content a₁ = report_content a₂ := by
  unfold run_main at h₁ h₂
  cases hg : get_whitelist_keywords w.whitelist_file st.whitelist_keywords with
  | error e =>
    rw [hg] at h₁
    exact absurd h₁ (by simp)
  | ok wl =>
    rw [hg] at h₁ h₂
    simp only [Except.ok.injEq, Prod.mk.injEq] at h₁ h₂
    have : a₁ = a₂ := by rw [← h₁.1, ← h₂.1]
    exact ⟨this, by rw [this]⟩

/-- C8 witness: two dry-run executions over the empty world at distinct
timestamps produce equal archived lists and equal report content. -/
theorem dry_run_report_deterministic_witness :
    ([] : List Channel) = [] ∧ report_content [] = report_content [] :=
  dry_run_report_deterministic sampleSettingsDry emptyWorld "A" "B" rfl [] []
    [Effect.log "THIS IS A DRY RUN. NO CHANNELS ARE ACTUALLY ARCHIVED.",
     generate_report "A" []]
    [Effect.log "THIS IS A DRY RUN. NO CHANNELS ARE ACTUALLY ARCHIVED.",
     generate_report "B" []]
    rfl rfl

end SlackAutoarchive
